import Mathlib

/-!
# Verification of the GuestExperience fulfillment orchestration layer

Shallow embedding of the upsell-order orchestration code
(`UpsellService`, the three provider integration services, and the
webhook routes) together with theorems settling the specification
claims about it.

Conventions of the embedding:
* JavaScript numbers used for prices are modelled as `ℚ`.
* JavaScript `Date` values are modelled as `Int` milliseconds since epoch.
* The Redis order cache is modelled as an association list
  `List (String × UpsellOrder)` where a write conses a fresh entry
  (lookup finds the most recent write, matching overwrite semantics).
* Thrown exceptions are modelled with `Except`; a stateful operation
  returns its `Except` result paired with the resulting store, so that
  writes performed before a throw persist (as they do in Redis).
* Network calls (provider dispatch, OAuth refresh, HMAC computation)
  are parameters of the embedded functions.
-/

/-- `UpsellOrderStatus` from `src/types/index.ts`. -/
inductive UpsellOrderStatus
  | pending
  | confirmed
  | inProgress
  | completed
  | cancelled
  | refunded
  deriving DecidableEq, Repr

/-- `UpsellItem` from `src/types/index.ts` (the catalog item); `provider`
models the `metadata.provider` entry read by `processExternalIntegrations`. -/
structure UpsellItem where
  id : String
  name : String
  price : ℚ
  currency : String
  available : Bool
  provider : Option String
  deriving DecidableEq, Repr

/-- One stored order line (`UpsellOrder.items` element from `src/types/index.ts`). -/
structure UpsellOrderLine where
  upsellId : String
  quantity : Nat
  price : ℚ
  deriving DecidableEq, Repr

/-- One requested line of `CreateUpsellOrderDto` from `src/types/index.ts`.
The DTO line carries no price field. -/
structure CreateUpsellOrderItemDto where
  upsellId : String
  quantity : Nat
  deriving DecidableEq, Repr

/-- `CreateUpsellOrderDto` from `src/types/index.ts`. -/
structure CreateUpsellOrderDto where
  reservationId : String
  items : List CreateUpsellOrderItemDto
  scheduledFor : Option Int
  deriving DecidableEq, Repr

/-- `UpsellOrder` from `src/types/index.ts`. -/
structure UpsellOrder where
  id : String
  reservationId : String
  propertyId : String
  guestId : String
  items : List UpsellOrderLine
  totalAmount : ℚ
  currency : String
  status : UpsellOrderStatus
  paymentIntentId : Option String
  externalOrderId : Option String
  externalProvider : Option String
  scheduledFor : Option Int
  completedAt : Option Int
  cancelledAt : Option Int
  refundedAt : Option Int
  createdAt : Int
  updatedAt : Int
  deriving DecidableEq, Repr

/-- The distinct `Error`s thrown by `UpsellService`. -/
inductive UpsellServiceError
  | itemNotFound (upsellId : String)
  | itemUnavailable (name : String)
  | orderNotFound
  deriving DecidableEq, Repr

/-- The Redis order cache keyed by order id. -/
abbrev OrderStore := List (String × UpsellOrder)

/-- Keyed lookup in an association list (first, i.e. most recent, entry wins). -/
def lookupKey {α : Type} : List (String × α) → String → Option α
  | [], _ => none
  | (k, v) :: rest, key => if k == key then some v else lookupKey rest key

/-- `UpsellService.cacheOrder`: `redis.setex` keyed by `order.id` (overwrite). -/
def cacheOrder (store : OrderStore) (order : UpsellOrder) : OrderStore :=
  (order.id, order) :: store

/-- `UpsellService.getOrderById`: cache lookup; on a miss the code returns
`null` (there is no database in this design). -/
def getOrderById (store : OrderStore) (orderId : String) : Option UpsellOrder :=
  lookupKey store orderId

/-- `UpsellService.updateOrderStatus`: load the order (throw if absent),
overwrite `status`, `externalOrderId`, `externalProvider`, `updatedAt`,
stamp the matching terminal timestamp, and cache the result. -/
def updateOrderStatus (store : OrderStore) (orderId : String)
    (status : UpsellOrderStatus) (externalOrderId externalProvider : Option String)
    (now : Int) : Except UpsellServiceError UpsellOrder × OrderStore :=
  match getOrderById store orderId with
  | none => (.error .orderNotFound, store)
  | some order =>
    let base : UpsellOrder :=
      { order with
        status := status
        externalOrderId := externalOrderId
        externalProvider := externalProvider
        updatedAt := now }
    let updated : UpsellOrder :=
      if status = .completed then { base with completedAt := some now }
      else if status = .cancelled then { base with cancelledAt := some now }
      else if status = .refunded then { base with refundedAt := some now }
      else base
    (.ok updated, cacheOrder store updated)

/-- The validation-and-pricing loop of `UpsellService.createUpsellOrder`
(`dto.items.map` with the running `totalAmount`): for each requested line,
find the catalog item (throw `itemNotFound` if absent), require
`available` (throw `itemUnavailable` otherwise), and build the stored
line with the catalog price. -/
def validateItems (catalog : List UpsellItem) :
    List CreateUpsellOrderItemDto →
    Except UpsellServiceError (List UpsellOrderLine × ℚ)
  | [] => .ok ([], 0)
  | line :: rest =>
    match catalog.find? (fun c => c.id == line.upsellId) with
    | none => .error (.itemNotFound line.upsellId)
    | some catalogItem =>
      if catalogItem.available then
        match validateItems catalog rest with
        | .error e => .error e
        | .ok (lines, total) =>
          .ok (⟨line.upsellId, line.quantity, catalogItem.price⟩ :: lines,
               catalogItem.price * (line.quantity : ℚ) + total)
      else .error (.itemUnavailable catalogItem.name)

/-- Truthiness of `metadata.provider` (`!catalogItem?.metadata?.provider`):
the string must be present and non-empty. -/
def providerTruthy : Option String → Bool
  | none => false
  | some p => !(p == "")

/-- Whether the `switch` in `processExternalIntegrations` has a case for
this provider string (otherwise it only warns and moves on). -/
def knownProvider (p : String) : Bool :=
  p == "uber" || p == "doordash" || p == "instacart"

/-- The per-item loop of `UpsellService.processExternalIntegrations`.
`dispatch` abstracts the provider calls made by
`processUberRideRequest` / `processDoorDashDelivery` /
`processInstacartOrder`: it returns the provider reference id, or the
message of the thrown error.  On success the order is updated to
`CONFIRMED` with the reference; a failure anywhere inside the `try`
(including a failing `updateOrderStatus`, which those helpers rethrow)
is caught and answered by `updateOrderStatus(orderId, PENDING,
undefined, provider)`, whose own failure would propagate. -/
def processItems (dispatch : String → UpsellOrderLine → Except String String)
    (catalog : List UpsellItem) (orderId : String) (now : Int) :
    List UpsellOrderLine → OrderStore → Except UpsellServiceError Unit × OrderStore
  | [], store => (.ok (), store)
  | item :: rest, store =>
    match catalog.find? (fun c => c.id == item.upsellId) with
    | none => processItems dispatch catalog orderId now rest store
    | some catalogItem =>
      if providerTruthy catalogItem.provider then
        let p := catalogItem.provider.getD ""
        if knownProvider p then
          match dispatch p item with
          | .ok externalId =>
            match updateOrderStatus store orderId .confirmed (some externalId) (some p) now with
            | (.ok _, store₁) => processItems dispatch catalog orderId now rest store₁
            | (.error _, store₁) =>
              match updateOrderStatus store₁ orderId .pending none (some p) now with
              | (.ok _, store₂) => processItems dispatch catalog orderId now rest store₂
              | (.error e, store₂) => (.error e, store₂)
          | .error _ =>
            match updateOrderStatus store orderId .pending none (some p) now with
            | (.ok _, store₁) => processItems dispatch catalog orderId now rest store₁
            | (.error e, store₁) => (.error e, store₁)
        else processItems dispatch catalog orderId now rest store
      else processItems dispatch catalog orderId now rest store

/-- `UpsellService.processExternalIntegrations` over a whole order. -/
def processExternalIntegrations
    (dispatch : String → UpsellOrderLine → Except String String)
    (catalog : List UpsellItem) (order : UpsellOrder) (now : Int)
    (store : OrderStore) : Except UpsellServiceError Unit × OrderStore :=
  processItems dispatch catalog order.id now order.items store

/-- `UpsellService.createUpsellOrder`: resolve the catalog (passed here as
the resolved snapshot), validate and price every line, build the order
in `PENDING`, cache it, then run the provider integrations.  `newId`
stands for the generated `uuidv4()`. -/
def createUpsellOrder (dispatch : String → UpsellOrderLine → Except String String)
    (catalog : List UpsellItem) (dto : CreateUpsellOrderDto)
    (guestId propertyId newId : String) (now : Int) (store : OrderStore) :
    Except UpsellServiceError UpsellOrder × OrderStore :=
  match validateItems catalog dto.items with
  | .error e => (.error e, store)
  | .ok (orderItems, totalAmount) =>
    let order : UpsellOrder :=
      { id := newId
        reservationId := dto.reservationId
        propertyId := propertyId
        guestId := guestId
        items := orderItems
        totalAmount := totalAmount
        currency := "USD"
        status := .pending
        paymentIntentId := none
        externalOrderId := none
        externalProvider := none
        scheduledFor := dto.scheduledFor
        completedAt := none
        cancelledAt := none
        refundedAt := none
        createdAt := now
        updatedAt := now }
    let store₁ := cacheOrder store order
    match processExternalIntegrations dispatch catalog order now store₁ with
    | (.error e, store₂) => (.error e, store₂)
    | (.ok _, store₂) => (.ok order, store₂)

/-- The price the resolved catalog assigns to an upsell id (`find` by id),
defaulting to `0` when the id is absent; spec-side formulation used to
compare the code's totals against the catalog snapshot. -/
def catalogPrice (catalog : List UpsellItem) (upsellId : String) : ℚ :=
  match catalog.find? (fun c => c.id == upsellId) with
  | some c => c.price
  | none => 0

/-- Spec-side total: `Σ (catalogPrice(line.upsellId) × line.quantity)` over
the requested lines. -/
def catalogTotal (catalog : List UpsellItem) (lines : List CreateUpsellOrderItemDto) : ℚ :=
  (lines.map (fun l => catalogPrice catalog l.upsellId * (l.quantity : ℚ))).sum

/-- The error thrown for the first invalid requested line, in request order:
`itemNotFound` if that line's id is absent from the catalog,
`itemUnavailable` if it is present but unavailable; `none` when every
line is valid. -/
def firstInvalidError (catalog : List UpsellItem) :
    List CreateUpsellOrderItemDto → Option UpsellServiceError
  | [] => none
  | line :: rest =>
    match catalog.find? (fun c => c.id == line.upsellId) with
    | none => some (.itemNotFound line.upsellId)
    | some catalogItem =>
      if catalogItem.available then firstInvalidError catalog rest
      else some (.itemUnavailable catalogItem.name)

/-- A requested line failing catalog validation: its id is absent from the
resolved catalog, or resolves to an unavailable item. -/
def lineInvalid (catalog : List UpsellItem) (line : CreateUpsellOrderItemDto) : Prop :=
  catalog.find? (fun c => c.id == line.upsellId) = none ∨
    ∃ c, catalog.find? (fun c' => c'.id == line.upsellId) = some c ∧ c.available = false

/-! ## Webhook routes (`src/routes/upsell.routes.ts`) -/

/-- Observable outcome of a webhook route handler: `401` rejection, or the
`200` acknowledgement carrying the event id. -/
inductive WebhookOutcome
  | rejected401
  | processed200 (eventId : String)
  deriving DecidableEq, Repr

/-- Truthiness of the header value read by
`request.headers['x-...-signature'] as string` — an absent header is
`undefined` (falsy), the empty string is falsy too. -/
def headerTruthy : Option String → Bool
  | none => false
  | some s => !(s == "")

/-- `DoorDashService.verifyWebhookSignature`: HMAC-SHA256 of the payload
with the signing secret, hex-encoded, compared with
`crypto.timingSafeEqual` (whose length-mismatch exception is caught and
turned into `false`); the net result is equality of the header value with
the computed digest.  `hmacHex` abstracts the keyed digest computation. -/
def verifyDoorDashSignature (hmacHex : String → String) (payload signature : String) : Bool :=
  signature == hmacHex payload

/-- `InstacartService.verifyWebhookSignature`: same shape as the DoorDash
check, keyed with the Instacart API key. -/
def verifyInstacartSignature (hmacHex : String → String) (payload signature : String) : Bool :=
  signature == hmacHex payload

/-- `UberService.verifyWebhookSignature`: the source returns `true`
unconditionally ("Uber currently doesn't provide webhook signature
verification"). -/
def verifyUberSignature (payload signature : String) : Bool :=
  true

/-- The DoorDash webhook route handler: it runs the signature check only
when the header is truthy (`if (signature && !verify(...))`), answers
`401` on a failed check, and otherwise processes the event and answers
`200`.  `processWebhook` only logs; it never touches the order store,
which the handler therefore returns unchanged on every path. -/
def doordashWebhookHandler (hmacHex : String → String)
    (signatureHeader : Option String) (rawBody eventId : String)
    (store : OrderStore) : WebhookOutcome × OrderStore :=
  if headerTruthy signatureHeader &&
      !(verifyDoorDashSignature hmacHex rawBody (signatureHeader.getD "")) then
    (.rejected401, store)
  else
    (.processed200 eventId, store)

/-- The Instacart webhook route handler; identical control flow to the
DoorDash one. -/
def instacartWebhookHandler (hmacHex : String → String)
    (signatureHeader : Option String) (rawBody eventId : String)
    (store : OrderStore) : WebhookOutcome × OrderStore :=
  if headerTruthy signatureHeader &&
      !(verifyInstacartSignature hmacHex rawBody (signatureHeader.getD "")) then
    (.rejected401, store)
  else
    (.processed200 eventId, store)

/-- The Uber webhook route handler: no signature branch at all; the event
is processed and acknowledged with `200`. -/
def uberWebhookHandler (rawBody eventId : String) (store : OrderStore) :
    WebhookOutcome × OrderStore :=
  (.processed200 eventId, store)

/-! ## Retry interceptor (shared shape of `setupInterceptors` in
`uber.service.ts`, `doordash.service.ts`, `instacart.service.ts`) -/

/-- The failure information the response interceptor inspects: the axios
error `code` and the optional HTTP response status. -/
structure AxiosCallError where
  networkCode : Option String
  status : Option Nat
  deriving DecidableEq, Repr

/-- The retry condition of the response interceptor:
`error.code === 'ECONNABORTED' || error.code === 'ETIMEDOUT' ||
(error.response?.status && error.response.status >= 500)`. -/
def interceptorRetryCondition (e : AxiosCallError) : Bool :=
  e.networkCode == some "ECONNABORTED" || e.networkCode == some "ETIMEDOUT" ||
    (match e.status with
     | some s => decide (500 ≤ s)
     | none => false)

/-- The interceptor's backoff delay for a given `_retry` counter value:
`min(1000 * 2^(attempt-1), 10000)`. -/
def interceptorBackoffDelay (attempt : Nat) : Nat :=
  min (1000 * 2 ^ (attempt - 1)) 10000

/-- One run of a request through the retry interceptor.  `outcome k`
gives the result of the `k`-th attempt (`none` = success, `some e` =
failure `e`).  The state is the `_retry` counter stored on the request
config, `0` standing for `undefined`.  A failed attempt is retried only
when `!originalRequest._retry` holds (counter still `0`) and the failure
matches the retry condition and the incremented counter is `≤ 3`.
Returns the number of attempts made and whether the final result is a
success.  The fuel argument strictly bounds the recursion; `5` is enough
for every reachable path. -/
def retryRun (outcome : Nat → Option AxiosCallError) :
    Nat → Nat → Nat → Nat × Bool
  | 0, k, _ => (k, false)
  | fuel + 1, k, r =>
    match outcome k with
    | none => (k + 1, true)
    | some e =>
      if r == 0 && interceptorRetryCondition e then
        let r' := r + 1
        if r' ≤ 3 then retryRun outcome fuel (k + 1) r'
        else (k + 1, false)
      else (k + 1, false)

/-- A provider call executed through the response interceptor, starting
with a fresh request config (`_retry` undefined). -/
def executeWithRetry (outcome : Nat → Option AxiosCallError) : Nat × Bool :=
  retryRun outcome 5 0 0

/-! ## Uber OAuth2 token cache (`uber.service.ts`) -/

/-- An entry of `UberService.tokenCache`. -/
structure CachedUberToken where
  token : String
  expiresAt : Int
  deriving DecidableEq, Repr

/-- The fields of the refresh response that `getValidToken` uses. -/
structure UberOAuth2Token where
  access_token : String
  expires_in : Int
  deriving DecidableEq, Repr

/-- The per-user token cache (`Map<string, { token, expiresAt }>`). -/
abbrev TokenCache := List (String × CachedUberToken)

/-- `UberService.getValidToken`: return the cached token when
`cached.expiresAt > new Date()`, otherwise refresh (the refresh
response is a parameter), cache the new token with
`expiresAt = now + expires_in * 1000`, and return it. -/
def getValidToken (tokenCache : TokenCache) (userId : String)
    (refreshed : UberOAuth2Token) (now : Int) : String × TokenCache :=
  match lookupKey tokenCache userId with
  | some cached =>
    if cached.expiresAt > now then (cached.token, tokenCache)
    else
      (refreshed.access_token,
        (userId, ⟨refreshed.access_token, now + refreshed.expires_in * 1000⟩) :: tokenCache)
  | none =>
    (refreshed.access_token,
      (userId, ⟨refreshed.access_token, now + refreshed.expires_in * 1000⟩) :: tokenCache)

/-- If the validation loop succeeds, the total is the catalog total and every
stored line carries the catalog price of its id. -/
theorem validateItems_ok_spec (catalog : List UpsellItem) :
    ∀ lines lines' total, validateItems catalog lines = .ok (lines', total) →
      total = catalogTotal catalog lines ∧
      lines' = lines.map
        (fun l => ⟨l.upsellId, l.quantity, catalogPrice catalog l.upsellId⟩) := by
  intro lines
  induction lines with
  | nil =>
    intro lines' total h
    simp only [validateItems, Except.ok.injEq, Prod.mk.injEq] at h
    simp [catalogTotal, ← h.1, ← h.2]
  | cons line rest ih =>
    intro lines' total h
    simp only [validateItems] at h
    cases hfind : catalog.find? (fun c => c.id == line.upsellId) with
    | none => rw [hfind] at h; exact absurd h (by simp)
    | some c =>
      rw [hfind] at h
      dsimp only at h
      by_cases hav : c.available
      · rw [if_pos hav] at h
        cases hrec : validateItems catalog rest with
        | error e => rw [hrec] at h; exact absurd h (by simp)
        | ok res =>
          obtain ⟨ls, t⟩ := res
          rw [hrec] at h
          simp only [Except.ok.injEq, Prod.mk.injEq] at h
          obtain ⟨h1, h2⟩ := h
          obtain ⟨iht, ihl⟩ := ih ls t hrec
          subst iht
          constructor
          · rw [← h2, catalogTotal]
            simp [catalogPrice, hfind, catalogTotal]
          · rw [← h1, ihl]
            simp [catalogPrice, hfind]
      · rw [if_neg hav] at h
        exact absurd h (by simp)

/-- The validation loop throws exactly the error of the first invalid
requested line. -/
theorem validateItems_error_iff (catalog : List UpsellItem) :
    ∀ lines e, validateItems catalog lines = .error e ↔
      firstInvalidError catalog lines = some e := by
  intro lines
  induction lines with
  | nil => intro e; simp [validateItems, firstInvalidError]
  | cons line rest ih =>
    intro e
    simp only [validateItems, firstInvalidError]
    cases hfind : catalog.find? (fun c => c.id == line.upsellId) with
    | none => simp
    | some c =>
      dsimp only
      by_cases hav : c.available
      · rw [if_pos hav, if_pos hav]
        cases hrec : validateItems catalog rest with
        | error e' => simp only [← ih e]; rw [hrec]
        | ok res => obtain ⟨ls, t⟩ := res; rw [← ih e, hrec]; simp
      · rw [if_neg hav, if_neg hav]
        simp
/-- A request containing an invalid line always has a first invalid line. -/
theorem firstInvalidError_isSome_of_invalid (catalog : List UpsellItem) :
    ∀ lines, (∃ l ∈ lines, lineInvalid catalog l) →
      ∃ e, firstInvalidError catalog lines = some e := by
  intro lines
  induction lines with
  | nil => rintro ⟨l, hl, _⟩; cases hl
  | cons line rest ih =>
    rintro ⟨l, hl, hinv⟩
    simp only [firstInvalidError]
    cases hfind : catalog.find? (fun c => c.id == line.upsellId) with
    | none => exact ⟨_, rfl⟩
    | some c =>
      dsimp only
      by_cases hav : c.available
      · rw [if_pos hav]
        rcases List.mem_cons.mp hl with heq | hmem
        · subst heq
          rcases hinv with hnone | ⟨c', hc', hcav⟩
          · rw [hfind] at hnone; cases hnone
          · rw [hfind] at hc'
            injection hc' with hc'
            subst hc'
            rw [hav] at hcav
            cases hcav
        · exact ih ⟨l, hmem, hinv⟩
      · rw [if_neg hav]
        exact ⟨_, rfl⟩

/-- `updateOrderStatus` on a present order succeeds, writes through
`cacheOrder`, keeps the order id, and applies the requested status. -/
theorem updateOrderStatus_found (store : OrderStore) (oid : String)
    (st : UpsellOrderStatus) (eid ep : Option String) (now : Int) (o : UpsellOrder)
    (h : getOrderById store oid = some o) :
    ∃ u, updateOrderStatus store oid st eid ep now = (.ok u, cacheOrder store u) ∧
      u.id = o.id ∧ u.status = st := by
  unfold updateOrderStatus
  rw [h]
  refine ⟨_, rfl, ?_, ?_⟩ <;> dsimp only <;> split_ifs <;> rfl

/-- Looking up an order right after caching it finds it. -/
theorem getOrderById_cacheOrder_self (store : OrderStore) (u : UpsellOrder) :
    getOrderById (cacheOrder store u) u.id = some u := by
  simp [getOrderById, cacheOrder, lookupKey]

/-- The integration loop of `processExternalIntegrations` never fails while
the order it updates is present in the store, and it keeps that order
present. -/
theorem processItems_ok_of_found (dispatch : String → UpsellOrderLine → Except String String)
    (catalog : List UpsellItem) (oid : String) (now : Int) :
    ∀ items store o, getOrderById store oid = some o → o.id = oid →
      (processItems dispatch catalog oid now items store).1 = .ok () ∧
      ∃ o', getOrderById (processItems dispatch catalog oid now items store).2 oid = some o' ∧
        o'.id = oid := by
  intro items
  induction items with
  | nil => intro store o h1 h2; exact ⟨rfl, o, h1, h2⟩
  | cons item rest ih =>
    intro store o h1 h2
    simp only [processItems]
    cases hfind : catalog.find? (fun c => c.id == item.upsellId) with
    | none => exact ih store o h1 h2
    | some c =>
      dsimp only
      by_cases hpt : providerTruthy c.provider
      · rw [if_pos hpt]
        by_cases hkp : knownProvider (c.provider.getD "")
        · rw [if_pos hkp]
          cases hdisp : dispatch (c.provider.getD "") item with
          | ok extId =>
            dsimp only
            obtain ⟨u, hu, huid, _⟩ :=
              updateOrderStatus_found store oid .confirmed (some extId)
                (some (c.provider.getD "")) now o h1
            rw [hu]
            have hfound : getOrderById (cacheOrder store u) oid = some u := by
              rw [← h2, ← huid]; exact getOrderById_cacheOrder_self store u
            exact ih (cacheOrder store u) u hfound (huid.trans h2)
          | error msg =>
            dsimp only
            obtain ⟨u, hu, huid, _⟩ :=
              updateOrderStatus_found store oid .pending none
                (some (c.provider.getD "")) now o h1
            rw [hu]
            have hfound : getOrderById (cacheOrder store u) oid = some u := by
              rw [← h2, ← huid]; exact getOrderById_cacheOrder_self store u
            exact ih (cacheOrder store u) u hfound (huid.trans h2)
        · rw [if_neg hkp]
          exact ih store o h1 h2
      · rw [if_neg hpt]
        exact ih store o h1 h2

/-- Like the previous lemma, but when every provider dispatch throws: the
stored order additionally stays `PENDING` throughout the loop. -/
theorem processItems_pending_of_all_fail
    (dispatch : String → UpsellOrderLine → Except String String)
    (catalog : List UpsellItem) (oid : String) (now : Int)
    (hfail : ∀ p i, ∃ msg, dispatch p i = .error msg) :
    ∀ items store o, getOrderById store oid = some o → o.id = oid →
      o.status = .pending →
      ∃ o', getOrderById (processItems dispatch catalog oid now items store).2 oid = some o' ∧
        o'.id = oid ∧ o'.status = .pending := by
  intro items
  induction items with
  | nil => intro store o h1 h2 h3; exact ⟨o, h1, h2, h3⟩
  | cons item rest ih =>
    intro store o h1 h2 h3
    simp only [processItems]
    cases hfind : catalog.find? (fun c => c.id == item.upsellId) with
    | none => exact ih store o h1 h2 h3
    | some c =>
      dsimp only
      by_cases hpt : providerTruthy c.provider
      · rw [if_pos hpt]
        by_cases hkp : knownProvider (c.provider.getD "")
        · rw [if_pos hkp]
          obtain ⟨msg, hmsg⟩ := hfail (c.provider.getD "") item
          rw [hmsg]
          dsimp only
          obtain ⟨u, hu, huid, hust⟩ :=
            updateOrderStatus_found store oid .pending none
              (some (c.provider.getD "")) now o h1
          rw [hu]
          have hfound : getOrderById (cacheOrder store u) oid = some u := by
            rw [← h2, ← huid]; exact getOrderById_cacheOrder_self store u
          exact ih (cacheOrder store u) u hfound (huid.trans h2) hust
        · rw [if_neg hkp]
          exact ih store o h1 h2 h3
      · rw [if_neg hpt]
        exact ih store o h1 h2 h3

/-- **C1.** Every order accepted by `createUpsellOrder` has
`totalAmount = Σ (catalog price of the line's upsellId) × (requested quantity)`
over the requested lines, and every stored line's price is the catalog
price of its id — both taken from the resolved catalog snapshot only (the
`CreateUpsellOrderDto` carries no price field a guest could influence). -/
theorem createUpsellOrder_total_from_catalog
    (dispatch : String → UpsellOrderLine → Except String String)
    (catalog : List UpsellItem) (dto : CreateUpsellOrderDto)
    (guestId propertyId newId : String) (now : Int) (store store' : OrderStore)
    (order : UpsellOrder)
    (h : createUpsellOrder dispatch catalog dto guestId propertyId newId now store
      = (.ok order, store')) :
    order.totalAmount = catalogTotal catalog dto.items ∧
    order.items = dto.items.map
      (fun l => ⟨l.upsellId, l.quantity, catalogPrice catalog l.upsellId⟩) := by
  unfold createUpsellOrder at h
  cases hval : validateItems catalog dto.items with
  | error e => rw [hval] at h; exact absurd h (by simp)
  | ok res =>
    obtain ⟨its, total⟩ := res
    rw [hval] at h
    dsimp only at h
    obtain ⟨htot, hits⟩ := validateItems_ok_spec catalog dto.items its total hval
    split at h
    · exact absurd h (by simp)
    · simp only [Prod.mk.injEq, Except.ok.injEq] at h
      obtain ⟨ho, _⟩ := h
      subst ho
      exact ⟨htot, hits⟩

/-- Witness for C1 at the spec's example scenario: a 5000-cent catalog item
ordered with quantity 1 yields `totalAmount = 5000`. -/
theorem createUpsellOrder_total_from_catalog_witness :
    createUpsellOrder (fun _ _ => .error "down")
      [⟨"early-checkin", "Early Check-in (11 AM)", 5000, "USD", true, none⟩]
      ⟨"res-1", [⟨"early-checkin", 1⟩], none⟩ "guest-1" "prop-1" "ord-1" 0 []
      = (.ok ⟨"ord-1", "res-1", "prop-1", "guest-1", [⟨"early-checkin", 1, 5000⟩],
          5000, "USD", .pending, none, none, none, none, none, none, none, 0, 0⟩,
         [("ord-1", ⟨"ord-1", "res-1", "prop-1", "guest-1", [⟨"early-checkin", 1, 5000⟩],
          5000, "USD", .pending, none, none, none, none, none, none, none, 0, 0⟩)]) ∧
    (UpsellOrder.totalAmount ⟨"ord-1", "res-1", "prop-1", "guest-1",
        [⟨"early-checkin", 1, 5000⟩],
        5000, "USD", .pending, none, none, none, none, none, none, none, 0, 0⟩)
      = catalogTotal [⟨"early-checkin", "Early Check-in (11 AM)", 5000, "USD", true, none⟩]
          [⟨"early-checkin", 1⟩] ∧
    catalogTotal [⟨"early-checkin", "Early Check-in (11 AM)", 5000, "USD", true, none⟩]
        [⟨"early-checkin", 1⟩] = 5000 := by
  have h : createUpsellOrder (fun _ _ => .error "down")
      [⟨"early-checkin", "Early Check-in (11 AM)", 5000, "USD", true, none⟩]
      ⟨"res-1", [⟨"early-checkin", 1⟩], none⟩ "guest-1" "prop-1" "ord-1" 0 []
      = (.ok ⟨"ord-1", "res-1", "prop-1", "guest-1", [⟨"early-checkin", 1, 5000⟩],
          5000, "USD", .pending, none, none, none, none, none, none, none, 0, 0⟩,
         [("ord-1", ⟨"ord-1", "res-1", "prop-1", "guest-1", [⟨"early-checkin", 1, 5000⟩],
          5000, "USD", .pending, none, none, none, none, none, none, none, 0, 0⟩)]) := by
    simp [createUpsellOrder, validateItems, processExternalIntegrations, processItems,
      cacheOrder, providerTruthy]
  refine ⟨h, (createUpsellOrder_total_from_catalog _ _ _ _ _ _ _ _ _ _ h).1, ?_⟩
  simp [catalogTotal, catalogPrice]

/-- **C4.** Once catalog validation has passed, `createUpsellOrder` never
fails and never rolls the order back: the order is returned (in `PENDING`)
and stays persisted for every dispatch behaviour, and when every provider
dispatch throws, the persisted order still has status `PENDING` — the
per-line errors are absorbed inside the integration loop. -/
theorem createUpsellOrder_survives_dispatch_failures
    (dispatch : String → UpsellOrderLine → Except String String)
    (catalog : List UpsellItem) (dto : CreateUpsellOrderDto)
    (guestId propertyId newId : String) (now : Int) (store : OrderStore)
    (its : List UpsellOrderLine) (total : ℚ)
    (hval : validateItems catalog dto.items = .ok (its, total)) :
    ∃ order,
      (createUpsellOrder dispatch catalog dto guestId propertyId newId now store).1
        = .ok order ∧
      order.status = .pending ∧ order.id = newId ∧
      (∃ o', getOrderById
          (createUpsellOrder dispatch catalog dto guestId propertyId newId now store).2
          newId = some o' ∧ o'.id = newId) ∧
      ((∀ p i, ∃ msg, dispatch p i = .error msg) →
        ∃ o', getOrderById
            (createUpsellOrder dispatch catalog dto guestId propertyId newId now store).2
            newId = some o' ∧ o'.status = .pending) := by
  unfold createUpsellOrder
  rw [hval]
  dsimp only
  set R : UpsellOrder :=
    ⟨newId, dto.reservationId, propertyId, guestId, its, total, "USD", .pending,
      none, none, none, dto.scheduledFor, none, none, none, now, now⟩ with hRdef
  have hRid : R.id = newId := by rw [hRdef]
  have hRst : R.status = .pending := by rw [hRdef]
  have hR : getOrderById (cacheOrder store R) newId = some R := by
    rw [← hRid]; exact getOrderById_cacheOrder_self store R
  simp only [processExternalIntegrations, hRid]
  obtain ⟨hok, o', ho', hoid⟩ :=
    processItems_ok_of_found dispatch catalog newId now R.items (cacheOrder store R) R hR hRid
  cases hpi : processItems dispatch catalog newId now R.items (cacheOrder store R) with
  | mk res st2 =>
    rw [hpi] at hok ho'
    dsimp only at hok ho'
    cases res with
    | error e => exact absurd hok (by simp)
    | ok u =>
      refine ⟨R, by simp, hRst, hRid, ⟨o', ho', hoid⟩, ?_⟩
      intro hfail
      obtain ⟨o'', ho'', _, ho''st⟩ :=
        processItems_pending_of_all_fail dispatch catalog newId now hfail R.items
          (cacheOrder store R) R hR hRid hRst
      rw [hpi] at ho''
      exact ⟨o'', ho'', ho''st⟩

/-- Witness for C4: a provider-bound item whose dispatch always throws still
yields a successful order creation with the persisted order `PENDING`. -/
theorem createUpsellOrder_survives_dispatch_failures_witness :
    ((createUpsellOrder (fun _ _ => .error "provider down")
        [⟨"ride-1", "Uber Ride", 0, "USD", true, some "uber"⟩]
        ⟨"res-4", [⟨"ride-1", 2⟩], none⟩ "guest-4" "prop-4" "ord-4" 7 []).1).isOk = true ∧
    (getOrderById
        ((createUpsellOrder (fun _ _ => .error "provider down")
          [⟨"ride-1", "Uber Ride", 0, "USD", true, some "uber"⟩]
          ⟨"res-4", [⟨"ride-1", 2⟩], none⟩ "guest-4" "prop-4" "ord-4" 7 []).2) "ord-4").map
      UpsellOrder.status = some .pending := by
  obtain ⟨order, h1, _, _, _, h5⟩ :=
    createUpsellOrder_survives_dispatch_failures (fun _ _ => .error "provider down")
      [⟨"ride-1", "Uber Ride", 0, "USD", true, some "uber"⟩]
      ⟨"res-4", [⟨"ride-1", 2⟩], none⟩ "guest-4" "prop-4" "ord-4" 7 []
      [⟨"ride-1", 2, 0⟩] 0 (by simp [validateItems])
  obtain ⟨o', ho', hst⟩ := h5 (fun p i => ⟨"provider down", rfl⟩)
  rw [h1, ho']
  simp [hst, Except.isOk, Except.toBool]

/-- **C5 (amended).** `createUpsellOrder` rejects the whole order — leaving
the store untouched, so no order is created — whenever any requested line
is absent from the resolved catalog or resolves to an unavailable item;
the error raised is the one of the *first* invalid line in request order
(`itemNotFound` when that line's id is absent, `itemUnavailable` when it
is present but unavailable), and these are the only errors the call can
produce. -/
theorem createUpsellOrder_rejects_invalid_lines
    (dispatch : String → UpsellOrderLine → Except String String)
    (catalog : List UpsellItem) (dto : CreateUpsellOrderDto)
    (guestId propertyId newId : String) (now : Int) (store : OrderStore) :
    ((∃ l ∈ dto.items, lineInvalid catalog l) →
      ∃ e, createUpsellOrder dispatch catalog dto guestId propertyId newId now store
        = (.error e, store)) ∧
    (∀ e store', createUpsellOrder dispatch catalog dto guestId propertyId newId now store
        = (.error e, store') →
      store' = store ∧ firstInvalidError catalog dto.items = some e) := by
  constructor
  · intro hinv
    obtain ⟨e, he⟩ := firstInvalidError_isSome_of_invalid catalog dto.items hinv
    refine ⟨e, ?_⟩
    unfold createUpsellOrder
    rw [(validateItems_error_iff catalog dto.items e).mpr he]
  · intro e store' h
    unfold createUpsellOrder at h
    cases hval : validateItems catalog dto.items with
    | error e0 =>
      rw [hval] at h
      dsimp only at h
      simp only [Prod.mk.injEq, Except.error.injEq] at h
      obtain ⟨he, hs⟩ := h
      subst he
      exact ⟨hs.symm, (validateItems_error_iff catalog dto.items e0).mp hval⟩
    | ok res =>
      obtain ⟨its, total⟩ := res
      rw [hval] at h
      dsimp only at h
      set R : UpsellOrder :=
        ⟨newId, dto.reservationId, propertyId, guestId, its, total, "USD", .pending,
          none, none, none, dto.scheduledFor, none, none, none, now, now⟩ with hRdef
      have hRid : R.id = newId := by rw [hRdef]
      have hR : getOrderById (cacheOrder store R) newId = some R := by
        rw [← hRid]; exact getOrderById_cacheOrder_self store R
      simp only [processExternalIntegrations, hRid] at h
      obtain ⟨hok, -⟩ :=
        processItems_ok_of_found dispatch catalog newId now R.items (cacheOrder store R) R hR hRid
      cases hpi : processItems dispatch catalog newId now R.items (cacheOrder store R) with
      | mk res2 st2 =>
        rw [hpi] at hok h
        dsimp only at hok
        cases res2 with
        | error e2 => exact absurd hok (by simp)
        | ok u => exact absurd h (by simp)

/-- Counterexample to C5 as stated: with catalog `[ItemA (unavailable)]` and
request lines `[item-a, item-b]`, the id `item-b` is absent from the
catalog, yet the call fails with `itemUnavailable "ItemA"` — not with an
item-not-found error as the claim requires whenever some id is absent. -/
theorem createUpsellOrder_error_kind_counterexample :
    List.find? (fun c : UpsellItem => c.id == "item-b")
        [⟨"item-a", "ItemA", 10, "USD", false, none⟩] = none ∧
    (createUpsellOrder (fun _ _ => .error "unused")
        [⟨"item-a", "ItemA", 10, "USD", false, none⟩]
        ⟨"res-5", [⟨"item-a", 1⟩, ⟨"item-b", 1⟩], none⟩ "g" "p" "ord-5" 0 []).1
      = .error (.itemUnavailable "ItemA") ∧
    UpsellServiceError.itemUnavailable "ItemA" ≠ .itemNotFound "item-a" ∧
    UpsellServiceError.itemUnavailable "ItemA" ≠ .itemNotFound "item-b" := by
  refine ⟨by simp, by simp [createUpsellOrder, validateItems], by simp, by simp⟩

/-- Witness for the amended C5: a request for an id absent from the catalog
is rejected with `itemNotFound`, the store is left empty, and that error is
the first-invalid-line error. -/
theorem createUpsellOrder_rejects_invalid_lines_witness :
    createUpsellOrder (fun _ _ => .error "unused")
        [⟨"item-a", "ItemA", 10, "USD", true, none⟩]
        ⟨"res-5w", [⟨"missing", 3⟩], none⟩ "g" "p" "ord-5w" 0 []
      = (.error (.itemNotFound "missing"), []) ∧
    firstInvalidError [⟨"item-a", "ItemA", 10, "USD", true, none⟩] [⟨"missing", 3⟩]
      = some (.itemNotFound "missing") := by
  have h : createUpsellOrder (fun _ _ => .error "unused")
      [⟨"item-a", "ItemA", 10, "USD", true, none⟩]
      ⟨"res-5w", [⟨"missing", 3⟩], none⟩ "g" "p" "ord-5w" 0 []
      = (.error (.itemNotFound "missing"), []) := by
    simp [createUpsellOrder, validateItems]
  exact ⟨h, ((createUpsellOrder_rejects_invalid_lines _ _ _ _ _ _ _ _).2 _ _ h).2⟩

/-- **C2 (amended).** For the DoorDash and Instacart webhook routes: when a
non-empty signature header is present and verification fails, the request
is rejected with 401 and nothing is processed; when the header is absent
(or empty), the signature check is skipped entirely and the event is
processed with 200.  On every path the order store is untouched (the
handlers never mutate order status). -/
theorem webhookSignatureGate (hmacDD hmacIC : String → String)
    (sig : Option String) (rawBody eventId : String) (store : OrderStore) :
    (headerTruthy sig = true →
      verifyDoorDashSignature hmacDD rawBody (sig.getD "") = false →
      doordashWebhookHandler hmacDD sig rawBody eventId store = (.rejected401, store)) ∧
    (headerTruthy sig = false →
      doordashWebhookHandler hmacDD sig rawBody eventId store
        = (.processed200 eventId, store)) ∧
    (doordashWebhookHandler hmacDD sig rawBody eventId store).2 = store ∧
    (headerTruthy sig = true →
      verifyInstacartSignature hmacIC rawBody (sig.getD "") = false →
      instacartWebhookHandler hmacIC sig rawBody eventId store = (.rejected401, store)) ∧
    (headerTruthy sig = false →
      instacartWebhookHandler hmacIC sig rawBody eventId store
        = (.processed200 eventId, store)) ∧
    (instacartWebhookHandler hmacIC sig rawBody eventId store).2 = store := by
  refine ⟨fun h1 h2 => ?_, fun h1 => ?_, ?_, fun h1 h2 => ?_, fun h1 => ?_, ?_⟩
  · simp [doordashWebhookHandler, h1, h2]
  · simp [doordashWebhookHandler, h1]
  · unfold doordashWebhookHandler; split_ifs <;> rfl
  · simp [instacartWebhookHandler, h1, h2]
  · simp [instacartWebhookHandler, h1]
  · unfold instacartWebhookHandler; split_ifs <;> rfl

/-- Counterexample to C2 as stated: a request with *no* signature header —
certainly not a valid signature — is not rejected with 401; both signed
webhook routes process it and answer 200, because the guard
`if (signature && !verify(...))` skips verification for a falsy header. -/
theorem webhookMissingSignatureBypass :
    verifyDoorDashSignature (fun _ => "deadbeef") "\x7b\x7d" "" = false ∧
    doordashWebhookHandler (fun _ => "deadbeef") none "\x7b\x7d" "evt-1" []
      = (.processed200 "evt-1", []) ∧
    instacartWebhookHandler (fun _ => "deadbeef") none "\x7b\x7d" "evt-2" []
      = (.processed200 "evt-2", []) ∧
    (WebhookOutcome.processed200 "evt-1") ≠ .rejected401 := by
  refine ⟨by decide, by decide, by decide, by decide⟩

/-- Witness for the amended C2: a present-but-wrong signature is rejected by
both signed routes, and an absent header is processed. -/
theorem webhookSignatureGate_witness :
    doordashWebhookHandler (fun _ => "good") (some "bad") "\x7b\x7d" "evt-3" []
      = (.rejected401, []) ∧
    instacartWebhookHandler (fun _ => "good") (some "bad") "\x7b\x7d" "evt-3" []
      = (.rejected401, []) ∧
    doordashWebhookHandler (fun _ => "good") none "\x7b\x7d" "evt-4" []
      = (.processed200 "evt-4", []) := by
  obtain ⟨h1, -, -, h4, -, -⟩ :=
    webhookSignatureGate (fun _ => "good") (fun _ => "good") (some "bad") "\x7b\x7d" "evt-3" []
  obtain ⟨-, h2, -, -, -, -⟩ :=
    webhookSignatureGate (fun _ => "good") (fun _ => "good") none "\x7b\x7d" "evt-4" []
  exact ⟨h1 (by decide) (by decide), h4 (by decide) (by decide), h2 (by decide)⟩

/-- **C3 (evaluation at the failing input).** Two transient (503) failures
followed by a would-be success make only **2** attempts and surface the
failure — the `!originalRequest._retry` guard allows a single retry, so
the third attempt never happens — while a non-transient (400) first
failure makes exactly 1 attempt. -/
theorem retryInterceptor_attempt_counts :
    executeWithRetry (fun k => if k < 2 then some ⟨none, some 503⟩ else none) = (2, false) ∧
    interceptorRetryCondition ⟨none, some 503⟩ = true ∧
    executeWithRetry (fun k => if k == 0 then some ⟨none, some 400⟩ else none) = (1, false) := by
  decide

/-- Counterexample to C6 as stated: an HTTP 429 response is not matched by
the interceptor's retry condition, and a call whose first attempt fails
with 429 (and would succeed on a second attempt) makes exactly one
attempt and surfaces the failure. -/
theorem rateLimitedNotRetried :
    interceptorRetryCondition ⟨none, some 429⟩ = false ∧
    executeWithRetry (fun k => if k == 0 then some ⟨none, some 429⟩ else none) = (1, false) := by
  decide

/-- **C6 (amended).** The interceptors shared by all three provider clients
retry exactly on the network-timeout codes `ECONNABORTED` / `ETIMEDOUT`
and on HTTP status ≥ 500; a call failing with HTTP 429 is surfaced
immediately after exactly one attempt with no retry. -/
theorem interceptorRetryCondition_spec :
    (∀ e : AxiosCallError, interceptorRetryCondition e = true ↔
      (e.networkCode = some "ECONNABORTED" ∨ e.networkCode = some "ETIMEDOUT" ∨
        ∃ s, e.status = some s ∧ 500 ≤ s)) ∧
    (∀ outcome : Nat → Option AxiosCallError, ∀ e : AxiosCallError,
      outcome 0 = some e → interceptorRetryCondition e = false →
      executeWithRetry outcome = (1, false)) := by
  constructor
  · rintro ⟨nc, st⟩
    cases st <;> simp [interceptorRetryCondition, or_assoc]
  · intro outcome e h he
    have hstep : executeWithRetry outcome =
        match outcome 0 with
        | none => (0 + 1, true)
        | some e =>
          if (0 == 0) && interceptorRetryCondition e then
            if 0 + 1 ≤ 3 then retryRun outcome 4 (0 + 1) (0 + 1) else (0 + 1, false)
          else (0 + 1, false) := rfl
    rw [hstep, h]
    simp [he]

/-- Witness for the amended C6: a call whose first attempt fails with
HTTP 429 makes exactly one attempt. -/
theorem interceptorRetryCondition_spec_witness :
    executeWithRetry (fun _ => some ⟨none, some 429⟩) = (1, false) :=
  interceptorRetryCondition_spec.2 (fun _ => some ⟨none, some 429⟩)
    ⟨none, some 429⟩ rfl (by decide)

/-- **C7.** The per-user token cache of `UberService` reuses a cached token
exactly while `now + 1ms ≤ expiresAt` — the literal condition
`cached.expiresAt > new Date()` — and otherwise refreshes before the
call, caching the new token with `expiresAt = now + expires_in × 1000`.
The margin `1` (millisecond) is positive, and the last conjunct shows it
is the only admissible one: a token expiring 1 ms from now is still
reused, so no margin of 2 ms or more satisfies the reuse condition. -/
theorem getValidToken_reuse_margin :
    ((0 : Int) < 1) ∧
    (∀ (cache : TokenCache) (userId : String) (refreshed : UberOAuth2Token)
        (now : Int) (cached : CachedUberToken),
      lookupKey cache userId = some cached →
        (now + 1 ≤ cached.expiresAt →
          getValidToken cache userId refreshed now = (cached.token, cache)) ∧
        (cached.expiresAt < now + 1 →
          getValidToken cache userId refreshed now =
            (refreshed.access_token,
              (userId, ⟨refreshed.access_token, now + refreshed.expires_in * 1000⟩)
                :: cache))) ∧
    (∀ m : Int, 2 ≤ m →
      getValidToken [("u", ⟨"tok", 1⟩)] "u" ⟨"fresh", 3600⟩ 0
          = ("tok", [("u", ⟨"tok", 1⟩)]) ∧
      ¬ ((0 : Int) + m ≤ (1 : Int))) := by
  refine ⟨by norm_num, ?_, ?_⟩
  · intro cache userId refreshed now cached h
    constructor
    · intro hle
      unfold getValidToken
      rw [h]
      dsimp only
      rw [if_pos (by omega)]
    · intro hlt
      unfold getValidToken
      rw [h]
      dsimp only
      rw [if_neg (by omega)]
  · intro m hm
    exact ⟨by simp [getValidToken, lookupKey], by omega⟩

/-- Witness for C7: a token 5 seconds from expiry is reused untouched, and
an expired token is refreshed and re-cached with the new expiry. -/
theorem getValidToken_reuse_margin_witness :
    getValidToken [("u1", ⟨"tok", 5000⟩)] "u1" ⟨"fresh", 3600⟩ 0
      = ("tok", [("u1", ⟨"tok", 5000⟩)]) ∧
    getValidToken [("u1", ⟨"tok", 5⟩)] "u1" ⟨"fresh", 3600⟩ 5
      = ("fresh", [("u1", ⟨"fresh", 5 + 3600 * 1000⟩), ("u1", ⟨"tok", 5⟩)]) := by
  constructor
  · exact (getValidToken_reuse_margin.2.1 [("u1", ⟨"tok", 5000⟩)] "u1" ⟨"fresh", 3600⟩ 0
      ⟨"tok", 5000⟩ (by decide)).1 (by decide)
  · exact (getValidToken_reuse_margin.2.1 [("u1", ⟨"tok", 5⟩)] "u1" ⟨"fresh", 3600⟩ 5
      ⟨"tok", 5⟩ (by decide)).2 (by decide)

/-- **C8.** `updateOrderStatus` on an existing order applies the requested
status and stamps `completedAt` / `cancelledAt` / `refundedAt` exactly
when the new status is `COMPLETED` / `CANCELLED` / `REFUNDED`
respectively (other statuses leave the stored timestamps untouched); on a
missing order id it fails with the not-found error and leaves the store
unchanged. -/
theorem updateOrderStatus_transition_spec (store : OrderStore) (oid : String)
    (st : UpsellOrderStatus) (eid ep : Option String) (now : Int) :
    (getOrderById store oid = none →
      updateOrderStatus store oid st eid ep now = (.error .orderNotFound, store)) ∧
    (∀ o, getOrderById store oid = some o →
      ∃ u, updateOrderStatus store oid st eid ep now = (.ok u, cacheOrder store u) ∧
        u.status = st ∧
        u.completedAt = (if st = .completed then some now else o.completedAt) ∧
        u.cancelledAt = (if st = .cancelled then some now else o.cancelledAt) ∧
        u.refundedAt = (if st = .refunded then some now else o.refundedAt)) := by
  constructor
  · intro h
    unfold updateOrderStatus
    rw [h]
  · intro o h
    unfold updateOrderStatus
    rw [h]
    dsimp only
    refine ⟨_, rfl, ?_, ?_, ?_, ?_⟩ <;> cases st <;> simp

/-- Witness for C8: completing a confirmed order stamps `completedAt`, and
updating a missing id fails with the not-found error on an unchanged
store. -/
theorem updateOrderStatus_transition_spec_witness :
    (updateOrderStatus
        [("ord-8", ⟨"ord-8", "r8", "p8", "g8", [], 0, "USD", .confirmed,
          none, none, none, none, none, none, none, 0, 0⟩)]
        "ord-8" .completed none none 99).1.map UpsellOrder.completedAt
      = .ok (some 99) ∧
    updateOrderStatus [] "ord-8" .completed none none 99
      = (.error .orderNotFound, []) := by
  constructor
  · obtain ⟨u, hu, -, hc, -, -⟩ :=
      (updateOrderStatus_transition_spec
        [("ord-8", ⟨"ord-8", "r8", "p8", "g8", [], 0, "USD", .confirmed,
          none, none, none, none, none, none, none, 0, 0⟩)]
        "ord-8" .completed none none 99).2
        ⟨"ord-8", "r8", "p8", "g8", [], 0, "USD", .confirmed,
          none, none, none, none, none, none, none, 0, 0⟩ (by decide)
    rw [hu]
    simp [Except.map] at hc ⊢
    exact hc
  · exact (updateOrderStatus_transition_spec [] "ord-8" .completed none none 99).1 rfl

/-- **C9.** `updateOrderStatus` replaces `externalOrderId` and
`externalProvider` with its arguments unconditionally — passing `none`
erases a previously stored value — while every field other than
`status`, `externalOrderId`, `externalProvider`, `updatedAt` and the
terminal timestamps is preserved; consequently (second conjunct, the
dispatch-failure path of `processExternalIntegrations`) an order whose
first line was dispatched successfully and whose second line failed ends
up stored with `externalOrderId = none`: the failure path wiped the
reference stored by the earlier success. -/
theorem updateOrderStatus_overwrites_external_reference (store : OrderStore)
    (oid : String) (st : UpsellOrderStatus) (eid ep : Option String) (now : Int) :
    (∀ o, getOrderById store oid = some o →
      ∃ u, updateOrderStatus store oid st eid ep now = (.ok u, cacheOrder store u) ∧
        u.externalOrderId = eid ∧ u.externalProvider = ep ∧ u.updatedAt = now ∧
        u.id = o.id ∧ u.reservationId = o.reservationId ∧ u.propertyId = o.propertyId ∧
        u.guestId = o.guestId ∧ u.items = o.items ∧ u.totalAmount = o.totalAmount ∧
        u.currency = o.currency ∧ u.paymentIntentId = o.paymentIntentId ∧
        u.scheduledFor = o.scheduledFor ∧ u.createdAt = o.createdAt) ∧
    (∃ o', getOrderById
        (createUpsellOrder
          (fun p _ => if p == "uber" then .ok "uber-req-1" else .error "boom")
          [⟨"ride", "Uber Ride", 0, "USD", true, some "uber"⟩,
           ⟨"food", "DoorDash Delivery", 0, "USD", true, some "doordash"⟩]
          ⟨"res-9", [⟨"ride", 1⟩, ⟨"food", 1⟩], none⟩ "g9" "p9" "ord-9" 3 []).2 "ord-9"
        = some o' ∧
      o'.externalOrderId = none ∧ o'.externalProvider = some "doordash" ∧
      o'.status = .pending) := by
  constructor
  · intro o h
    unfold updateOrderStatus
    rw [h]
    dsimp only
    refine ⟨_, rfl, ?_, ?_, ?_, ?_, ?_, ?_, ?_, ?_, ?_, ?_, ?_, ?_, ?_⟩ <;>
      cases st <;> simp
  · refine ⟨⟨"ord-9", "res-9", "p9", "g9", [⟨"ride", 1, 0⟩, ⟨"food", 1, 0⟩], 0, "USD",
      .pending, none, none, some "doordash", none, none, none, none, 3, 3⟩,
      ?_, rfl, rfl, rfl⟩
    simp [createUpsellOrder, validateItems, processExternalIntegrations, processItems,
      updateOrderStatus, getOrderById, cacheOrder, lookupKey, providerTruthy, knownProvider]

/-- Witness for C9: updating an order that carries `externalOrderId = some
"uber-1"` with `externalOrderId = none` erases the stored reference while
keeping the frame fields. -/
theorem updateOrderStatus_overwrites_external_reference_witness :
    ((updateOrderStatus
        [("ord-9w", ⟨"ord-9w", "r9", "p9", "g9", [], 0, "USD", .confirmed,
          none, some "uber-1", some "uber", none, none, none, none, 0, 0⟩)]
        "ord-9w" .pending none (some "doordash") 5).1.map UpsellOrder.externalOrderId
      = .ok none) ∧
    ((updateOrderStatus
        [("ord-9w", ⟨"ord-9w", "r9", "p9", "g9", [], 0, "USD", .confirmed,
          none, some "uber-1", some "uber", none, none, none, none, 0, 0⟩)]
        "ord-9w" .pending none (some "doordash") 5).1.map UpsellOrder.reservationId
      = .ok "r9") := by
  obtain ⟨u, hu, he, -, -, -, hr, -⟩ :=
    (updateOrderStatus_overwrites_external_reference
      [("ord-9w", ⟨"ord-9w", "r9", "p9", "g9", [], 0, "USD", .confirmed,
        none, some "uber-1", some "uber", none, none, none, none, 0, 0⟩)]
      "ord-9w" .pending none (some "doordash") 5).1
      ⟨"ord-9w", "r9", "p9", "g9", [], 0, "USD", .confirmed,
        none, some "uber-1", some "uber", none, none, none, none, 0, 0⟩ (by decide)
  rw [hu]
  simp [Except.map, he, hr]

/-- **C10.** `UberService.verifyWebhookSignature` returns `true` on every
input, and the Uber webhook route performs no signature check at all: it
is never rejected with 401 on signature grounds. -/
theorem uberWebhook_never_rejected :
    (∀ payload signature, verifyUberSignature payload signature = true) ∧
    (∀ rawBody eventId store,
      uberWebhookHandler rawBody eventId store = (.processed200 eventId, store) ∧
      (uberWebhookHandler rawBody eventId store).1 ≠ .rejected401) := by
  exact ⟨fun _ _ => rfl, fun _ _ _ => ⟨rfl, by simp [uberWebhookHandler]⟩⟩

/-- Witness for C10: a concrete Uber webhook with an arbitrary body is
acknowledged with 200 and the trivial verifier accepts an arbitrary
signature. -/
theorem uberWebhook_never_rejected_witness :
    verifyUberSignature "\x7b\x7d" "garbage" = true ∧
    uberWebhookHandler "\x7b\x7d" "evt-10" [] = (.processed200 "evt-10", []) := by
  exact ⟨uberWebhook_never_rejected.1 "\x7b\x7d" "garbage",
    (uberWebhook_never_rejected.2 "\x7b\x7d" "evt-10" []).1⟩
